import Mathlib

/-!
Verification development for the tapestry-archive crawler
(src/tapestry_archive/cli.py).

The Python module is shallowly embedded: each function of the source is
translated into an executable Lean definition over explicit data.

Modelling conventions, fixed once here:
* A fetched HTML page (BeautifulSoup document) is represented by the
  `PageDocument` record holding exactly the pieces of the page the source
  queries: the stripped-text content of the selectors used by the code
  (.alert, h1, .page-note p, .obs-metadata p), the src attributes of the
  media selectors, and the href of the li.previous a anchor.
* Exceptions become `Except` / `Option` results.  `LoggedOutException`
  and the untyped parse failures of `get_metadata` (AttributeError on a
  missing element, a failed regex match, a strptime ValueError) become
  the two constructors of `MetadataError`.
* Network requests (`requests.get` in `get_doc` and in the two save
  functions) become a `Site` record of pure functions: `fetch` returns
  the parsed page or `none` (a requests exception, the FetchError of the
  spec), `download` returns whether fetching the asset bytes succeeds.
* Python `datetime` values are the `DateTime` record of five naturals;
  `strftime` and `strptime` for the two fixed format strings of the
  source are implemented below.  Logging calls are dropped.
* The unbounded while loop of `run` is given explicit fuel; running out
  of fuel yields the artificial terminal marker `Terminal.outOfFuel`.
-/

/-- Characters treated as whitespace by Python str.strip for the ASCII
range (the source only strips text where non-ASCII whitespace does not
occur in the properties under study). -/
def isPyWs (c : Char) : Bool :=
  c == ' ' || c == '\t' || c == '\n' || c == '\r' || c == '\x0b' || c == '\x0c'

/-- Python str.strip on a character list: drop leading and trailing
whitespace. -/
def pyStrip (cs : List Char) : List Char :=
  ((cs.dropWhile isPyWs).reverse.dropWhile isPyWs).reverse

/-- Python str.strip on a String. -/
def pyStripS (s : String) : String :=
  String.mk (pyStrip s.data)

/-- Python str.replace applied to one character: used for
.replace of a newline by a space in get_metadata. -/
def collapseNewlines (s : String) : String :=
  String.mk (s.data.map (fun c => if c = '\n' then ' ' else c))

/-- Strip a literal pattern from the front of a list, returning the
remainder when the list starts with the pattern. -/
def dropPat : List Char → List Char → Option (List Char)
  | [], cs => some cs
  | _ :: _, [] => none
  | p :: ps, c :: cs => if c = p then dropPat ps cs else none

/-- Leftmost-occurrence search for a literal pattern, returning the text
after the occurrence: the semantics of re.search on a fully escaped
pattern followed by a capturing tail. -/
def searchAfter (pat : List Char) : List Char → Option (List Char)
  | [] => dropPat pat []
  | c :: cs =>
    match dropPat pat (c :: cs) with
    | some rest => some rest
    | none => searchAfter pat cs

/-- Python substring membership test (the in operator on str). -/
def containsPat (pat cs : List Char) : Bool :=
  (searchAfter pat cs).isSome

/-- Split a list at the LAST occurrence of a literal pattern, returning
the text before and after it.  This is how a greedy group followed by a
literal followed by a greedy group distributes a line in re.search. -/
def findLastSplit (pat : List Char) : List Char → Option (List Char × List Char)
  | [] => (dropPat pat []).map (fun rest => (([] : List Char), rest))
  | c :: cs =>
    match findLastSplit pat cs with
    | some (pre, post) => some (c :: pre, post)
    | none => (dropPat pat (c :: cs)).map (fun rest => (([] : List Char), rest))

def authoredByPat : List Char := "Authored by ".data

def addedPat : List Char := " added ".data

/-- The semantics of re.search applied to the fixed metadata caption
pattern of get_metadata: the literal Authored-by text, a greedy
dot-star group, the literal added text, a greedy dot-star group.  The
dot does not cross a newline, the scan tries start positions left to
right, and the greedy first group pushes the literal to its last
occurrence within the line.  Returns the two captured groups. -/
def searchAuthoredAdded : List Char → Option (List Char × List Char)
  | [] => none
  | c :: cs =>
    match dropPat authoredByPat (c :: cs) with
    | some rest =>
      match findLastSplit addedPat (rest.takeWhile (fun ch => ch != '\n')) with
      | some (g1, g2) => some (g1, g2)
      | none => searchAuthoredAdded cs
    | none => searchAuthoredAdded cs

/-- Split on runs of whitespace, dropping empty pieces: the whitespace
handling of strptime between format directives. -/
def splitWsAux : List Char → List Char → List (List Char)
  | [], acc => if acc.isEmpty then [] else [acc.reverse]
  | c :: cs, acc =>
    if isPyWs c then
      if acc.isEmpty then splitWsAux cs [] else acc.reverse :: splitWsAux cs []
    else splitWsAux cs (c :: acc)

def splitWs (cs : List Char) : List (List Char) :=
  splitWsAux cs []

/-- Split on every occurrence of a separator character. -/
def splitOnCharAux (sep : Char) : List Char → List Char → List (List Char)
  | [], acc => [acc.reverse]
  | c :: cs, acc =>
    if c = sep then acc.reverse :: splitOnCharAux sep cs []
    else splitOnCharAux sep cs (c :: acc)

def splitOnChar (sep : Char) (cs : List Char) : List (List Char) :=
  splitOnCharAux sep cs []

/-- Parse a non-empty all-digit token as a decimal natural. -/
def parseNatDigits : List Char → Option Nat
  | [] => none
  | cs =>
    if cs.all Char.isDigit then
      some (cs.foldl (fun n c => n * 10 + (c.toNat - 48)) 0)
    else none

/-- Decimal digit character table for rendering naturals. -/
def digitChar (d : Nat) : Char :=
  if d = 0 then '0' else if d = 1 then '1' else if d = 2 then '2'
  else if d = 3 then '3' else if d = 4 then '4' else if d = 5 then '5'
  else if d = 6 then '6' else if d = 7 then '7' else if d = 8 then '8' else '9'

/-- Fuel-bounded accumulator loop rendering a natural in decimal. -/
def natToCharsRec : Nat → Nat → List Char → List Char
  | 0, _, acc => acc
  | fuel + 1, n, acc =>
    if n < 10 then digitChar n :: acc
    else natToCharsRec fuel (n / 10) (digitChar (n % 10) :: acc)

/-- Decimal digits of a natural, most significant first. -/
def natToChars (n : Nat) : List Char :=
  natToCharsRec (n + 1) n []

/-- Decimal rendering of a natural: the embedding of Python str on a
non-negative int. -/
def natRepr (n : Nat) : String :=
  String.mk (natToChars n)

/-- Left-pad with a fill character up to a width. -/
def leftPad (k : Nat) (c : Char) (cs : List Char) : List Char :=
  List.replicate (k - cs.length) c ++ cs

/-- Zero-padded two-digit field of strftime. -/
def pad2 (n : Nat) : String :=
  String.mk (leftPad 2 '0' (natToChars n))

/-- Zero-padded four-digit year field of strftime. -/
def pad4 (n : Nat) : String :=
  String.mk (leftPad 4 '0' (natToChars n))

/-- A Python datetime value as used by the source: minute resolution. -/
structure DateTime where
  year : Nat
  month : Nat
  day : Nat
  hour : Nat
  minute : Nat
deriving DecidableEq

/-- Abbreviated month names accepted by the strptime directive for a
month, compared case-insensitively. -/
def monthAbbrevNum (cs : List Char) : Option Nat :=
  match String.mk (cs.map Char.toLower) with
  | "jan" => some 1
  | "feb" => some 2
  | "mar" => some 3
  | "apr" => some 4
  | "may" => some 5
  | "jun" => some 6
  | "jul" => some 7
  | "aug" => some 8
  | "sep" => some 9
  | "oct" => some 10
  | "nov" => some 11
  | "dec" => some 12
  | _ => none

/-- Full month names produced by the strftime directive for a month. -/
def monthFullName (m : Nat) : String :=
  match m with
  | 1 => "January"
  | 2 => "February"
  | 3 => "March"
  | 4 => "April"
  | 5 => "May"
  | 6 => "June"
  | 7 => "July"
  | 8 => "August"
  | 9 => "September"
  | 10 => "October"
  | 11 => "November"
  | 12 => "December"
  | _ => ""

/-- AM and PM markers, compared case-insensitively; true means PM. -/
def meridiem (cs : List Char) : Option Bool :=
  match String.mk (cs.map Char.toLower) with
  | "am" => some false
  | "pm" => some true
  | _ => none

def isLeapYear (y : Nat) : Bool :=
  y % 4 == 0 && (y % 100 != 0 || y % 400 == 0)

def daysInMonth (y m : Nat) : Nat :=
  match m with
  | 2 => if isLeapYear y then 29 else 28
  | 4 => 30
  | 6 => 30
  | 9 => 30
  | 11 => 30
  | _ => 31

/-- Parse the time token of the caption date: a twelve-hour clock hour
and a minute separated by a colon. -/
def parseTimeHM (cs : List Char) : Option (Nat × Nat) :=
  match splitOnChar ':' cs with
  | [hh, mm] =>
    match parseNatDigits hh, parseNatDigits mm with
    | some h, some m =>
      if hh.length ≤ 2 ∧ mm.length ≤ 2 ∧ 1 ≤ h ∧ h ≤ 12 ∧ m ≤ 59 then
        some (h, m)
      else none
    | _, _ => none
  | _ => none

/-- datetime.strptime for the fixed caption format of get_metadata:
day, abbreviated month, four-digit year, twelve-hour time, meridiem,
separated by whitespace, with calendar validation as performed by the
datetime constructor.  Failure models the ValueError. -/
def strptimeObs (cs : List Char) : Option DateTime :=
  match splitWs cs with
  | [dTok, monTok, yTok, timeTok, apTok] =>
    match parseNatDigits dTok, monthAbbrevNum monTok, parseNatDigits yTok,
          parseTimeHM timeTok, meridiem apTok with
    | some day, some month, some year, some (h, m), some isPM =>
      if dTok.length ≤ 2 ∧ yTok.length = 4 ∧ 1 ≤ year ∧ 1 ≤ day ∧
         day ≤ daysInMonth year month then
        some { year := year, month := month, day := day,
               hour := if isPM then (if h = 12 then 12 else h + 12)
                       else (if h = 12 then 0 else h),
               minute := m }
      else none
    | _, _, _, _, _ => none
  | _ => none

/-- The twelve-hour clock rendering of an hour for strftime. -/
def hour12 (h : Nat) : Nat :=
  if h % 12 = 0 then 12 else h % 12

/-- strftime for the journal entry date format of
capture_observation_info: unpadded day, full month, year, padded
twelve-hour time, meridiem with no space before it. -/
def strftimeEntry (d : DateTime) : String :=
  natRepr d.day ++ " " ++ monthFullName d.month ++ " " ++ pad4 d.year ++ " " ++
    pad2 (hour12 d.hour) ++ ":" ++ pad2 d.minute ++
    (if d.hour < 12 then "AM" else "PM")

/-- strftime for the leading part of a media file name in
get_file_name: the images directory, then year, month, day, hour and
minute zero-padded and joined by hyphens, then a trailing hyphen. -/
def strftimeFileStart (d : DateTime) : String :=
  "./images/" ++ pad4 d.year ++ "-" ++ pad2 d.month ++ "-" ++ pad2 d.day ++
    "-" ++ pad2 d.hour ++ "-" ++ pad2 d.minute ++ "-"

/-- The TapestryConfig dataclass of the source. -/
structure TapestryConfig where
  cookie_value : String
  first_observation_id : String
  name : String
  school : String
  base_url : String
  timeout : Nat := 60

/-- A fetched page as observed through the selector queries the source
performs on the BeautifulSoup document. -/
structure PageDocument where
  alerts : List String
  heading : Option String
  noteText : Option String
  obsMetadataText : Option String
  imageSrcs : List String
  videoSrcs : List String
  previousHref : Option String

/-- The metadata dict built by get_metadata, as a typed record. -/
structure ObservationMetadata where
  title : String
  description : String
  artist : String
  date : DateTime
deriving DecidableEq

/-- The two ways get_metadata fails: the typed LoggedOutException, and
the untyped structural failures (missing element, failed caption match,
date ValueError) which the spec groups as its metadata parse error. -/
inductive MetadataError where
  | sessionExpired
  | metadataParseError
deriving DecidableEq

def loggedOutPat : List Char := "logged out".data

/-- One alert region triggers the logged-out detection when its
stripped text is non-empty and contains the logged-out substring. -/
def alertTriggers (alert : String) : Bool :=
  let alertText := pyStrip alert.data
  !alertText.isEmpty && containsPat loggedOutPat alertText

/-- get_metadata of the source: the alert scan, then title, description
and caption extraction with the fixed search pattern and date format. -/
def get_metadata (doc : PageDocument) : Except MetadataError ObservationMetadata :=
  if doc.alerts.any alertTriggers then
    Except.error MetadataError.sessionExpired
  else
    match doc.heading with
    | none => Except.error MetadataError.metadataParseError
    | some h1Text =>
      let title := pyStripS h1Text
      match doc.noteText with
      | none => Except.error MetadataError.metadataParseError
      | some noteT =>
        let description := collapseNewlines (pyStripS noteT)
        match doc.obsMetadataText with
        | none => Except.error MetadataError.metadataParseError
        | some metaT =>
          match searchAuthoredAdded (pyStrip metaT.data) with
          | none => Except.error MetadataError.metadataParseError
          | some (g1, g2) =>
            match strptimeObs g2 with
            | none => Except.error MetadataError.metadataParseError
            | some date =>
              Except.ok { title := title, description := description,
                          artist := String.mk g1, date := date }

/-- The title slug built inline by get_file_name: the substitution
removing every character outside the seven-bit range, then strip, then
replacement of each space by a hyphen. -/
def slugifyTitle (title : String) : String :=
  String.mk ((pyStrip (title.data.filter (fun c => decide (c.toNat ≤ 127)))).map
    (fun c => if c = ' ' then '-' else c))

/-- get_file_name of the source. -/
def get_file_name (metadata : ObservationMetadata) (index : Nat) (video : Bool) : String :=
  let file_name := strftimeFileStart metadata.date
  let file_name := file_name ++ slugifyTitle metadata.title
  let file_name := file_name ++ (if index > 0 then "-" ++ natRepr index else "")
  let file_name := file_name ++ (if video then ".mp4" else ".jpeg")
  file_name

/-- capture_observation_info of the source. -/
def capture_observation_info (metadata : ObservationMetadata) : String :=
  let md := "## " ++ metadata.title ++ "\n\n"
  let md := md ++ ("### " ++ metadata.artist ++ ", " ++ strftimeEntry metadata.date ++ "\n\n")
  let md := md ++ (metadata.description ++ "\n\n")
  md

/-- The error taxonomy of the run, as the spec names the exceptions the
source can raise while processing a page. -/
inductive RunError where
  | fetchError
  | sessionExpired
  | metadataParseError
  | navigationParseError
  | downloadError
deriving DecidableEq

/-- The remote side as pure functions: fetch returns the parsed page of
an observation id or fails (the requests exception raised by get_doc),
download reports whether fetching the bytes of an asset url succeeds
(the requests call of the two save functions). -/
structure Site where
  fetch : String → Option PageDocument
  download : String → Bool

/-- save_media_for_page of the source: select the media, extract the
metadata, download every image then every video (a failing request
aborts, matching the first raising iteration of the Python loops), and
return the formatted journal section.  The file writes themselves carry
no information the claims consult, so only success is recorded. -/
def save_media_for_page (site : Site) (doc : PageDocument) : Except RunError String :=
  let images := doc.imageSrcs
  let videos := doc.videoSrcs
  match get_metadata doc with
  | Except.error MetadataError.sessionExpired => Except.error RunError.sessionExpired
  | Except.error MetadataError.metadataParseError => Except.error RunError.metadataParseError
  | Except.ok metadata =>
    if images.all site.download then
      if videos.all site.download then
        Except.ok (capture_observation_info metadata)
      else Except.error RunError.downloadError
    else Except.error RunError.downloadError

/-- get_next_observation_id of the source: absent anchor yields no next
id; otherwise the href is searched for the escaped base url, a slash
and a possibly empty greedy run of digits, failing (the RuntimeError,
the NavigationParseError of the spec) when the base url pattern does
not occur in the href. -/
def get_next_observation_id (doc : PageDocument) (config : TapestryConfig) :
    Except RunError (Option String) :=
  match doc.previousHref with
  | none => Except.ok none
  | some href =>
    match searchAfter (config.base_url.data ++ ['/']) href.data with
    | none => Except.error RunError.navigationParseError
    | some rest => Except.ok (some (String.mk (rest.takeWhile Char.isDigit)))

/-- Terminal state of a run: the loop finished (Done), an exception
propagated (Aborted), or the modelling fuel ran out. -/
inductive Terminal where
  | done
  | aborted (e : RunError)
  | outOfFuel
deriving DecidableEq

/-- Observable outcome of a run: the ids printed in order, the journal
string accumulated in memory, the content written to the journal file
(none when the write statement was never reached), and the terminal
state. -/
structure RunResult where
  visited : List String
  journal : String
  written : Option String
  terminal : Terminal
deriving DecidableEq

/-- The while loop of run.  The cursor is the Python variable holding
either None or an id string; the loop continues exactly while the value
is truthy, that is, a non-empty string.  The file write after the loop
is reached only when the loop exits normally; a raised exception leaves
written as none. -/
def runLoop (site : Site) (config : TapestryConfig) (fuel : Nat) (cur : Option String)
    (md : String) (visited : List String) : RunResult :=
  match cur with
  | none => { visited := visited.reverse, journal := md, written := some md,
              terminal := Terminal.done }
  | some obsId =>
    if obsId = "" then
      { visited := visited.reverse, journal := md, written := some md,
        terminal := Terminal.done }
    else
      match fuel with
      | 0 => { visited := visited.reverse, journal := md, written := none,
               terminal := Terminal.outOfFuel }
      | fuel' + 1 =>
        match site.fetch obsId with
        | none => { visited := (obsId :: visited).reverse, journal := md,
                    written := none, terminal := Terminal.aborted RunError.fetchError }
        | some doc =>
          match save_media_for_page site doc with
          | Except.error e =>
            { visited := (obsId :: visited).reverse, journal := md,
              written := none, terminal := Terminal.aborted e }
          | Except.ok s =>
            match get_next_observation_id doc config with
            | Except.error e =>
              { visited := (obsId :: visited).reverse, journal := md ++ s,
                written := none, terminal := Terminal.aborted e }
            | Except.ok next =>
              runLoop site config fuel' next (md ++ s) (obsId :: visited)

/-- The top-level heading run seeds the journal with. -/
def runHeader (config : TapestryConfig) : String :=
  "# Tapestry observations for " ++ config.name ++ "\n\n"

/-- run of the source. -/
def run (site : Site) (config : TapestryConfig) (fuel : Nat) : RunResult :=
  runLoop site config fuel (some config.first_observation_id) (runHeader config) []

/-- How the process ends: main returning normally (exit status zero),
sys.exit with an explicit code, or an exception the interpreter reports
with a traceback (exit status one). -/
inductive ProcessExit where
  | exitZero
  | sysExit (code : Nat)
  | uncaught (e : RunError)
  | outOfFuel
deriving DecidableEq

/-- The main function of the source (renamed here because the Lean
toolchain reserves the name): it catches only LoggedOutException, printing a
message and calling sys.exit 1; every other exception escapes main and
terminates the interpreter. -/
def mainEntry (site : Site) (config : TapestryConfig) (fuel : Nat) : ProcessExit :=
  match (run site config fuel).terminal with
  | Terminal.done => ProcessExit.exitZero
  | Terminal.aborted RunError.sessionExpired => ProcessExit.sysExit 1
  | Terminal.aborted e => ProcessExit.uncaught e
  | Terminal.outOfFuel => ProcessExit.outOfFuel

/-- Exit status of the process for each way main ends; an uncaught
exception makes the CPython interpreter exit with status one.  The
out-of-fuel marker stands for a run that never terminates, so the value
there is arbitrary. -/
def mainExitCode : ProcessExit → Nat
  | ProcessExit.exitZero => 0
  | ProcessExit.sysExit code => code
  | ProcessExit.uncaught _ => 1
  | ProcessExit.outOfFuel => 0

/-- Modelled from the spec: the file-name construction as section 4.4
words it, written independently of get_file_name to compare the two:
the images directory, the timestamp rendered as zero-padded year,
month, day, hour and minute joined by hyphens, a hyphen, the slugified
title, an ordinal suffix exactly when the ordinal is positive, and the
extension fixed by the media kind. -/
def specFileName (metadata : ObservationMetadata) (ordinal : Nat) (isVideo : Bool) : String :=
  "./images/" ++
    (pad4 metadata.date.year ++ "-" ++ pad2 metadata.date.month ++ "-" ++
      pad2 metadata.date.day ++ "-" ++ pad2 metadata.date.hour ++ "-" ++
      pad2 metadata.date.minute) ++
    "-" ++ slugifyTitle metadata.title ++
    (if 0 < ordinal then "-" ++ natRepr ordinal else "") ++
    (if isVideo then ".mp4" else ".jpeg")

/-- Concatenation of the per-page journal sections, in visitation
order. -/
def joinSections : List String → String
  | [] => ""
  | s :: ss => s ++ joinSections ss

/-- A finite chain of pages: from the given id, every page fetches and
processes successfully, each page links to the next via its previous
anchor, and the final page has no previous anchor.  The second index
lists the visited ids in link order, the third the journal section each
page contributes. -/
inductive Chain (site : Site) (config : TapestryConfig) : String → List String → List String → Prop where
  | last (obsId : String) (doc : PageDocument) (s : String) :
      obsId ≠ "" →
      site.fetch obsId = some doc →
      save_media_for_page site doc = Except.ok s →
      doc.previousHref = none →
      Chain site config obsId [obsId] [s]
  | step (obsId : String) (doc : PageDocument) (s nextId : String) (ids secs : List String) :
      obsId ≠ "" →
      site.fetch obsId = some doc →
      save_media_for_page site doc = Except.ok s →
      get_next_observation_id doc config = Except.ok (some nextId) →
      Chain site config nextId ids secs →
      Chain site config obsId (obsId :: ids) (s :: secs)

/-- A concrete configuration used by the witnesses. -/
def cfgT : TapestryConfig :=
  { cookie_value := "c", first_observation_id := "101", name := "Test Owner",
    school := "school", base_url := "https://tapestryjournal.com/s/school/observation" }

/-- First page of the witness chain, linking to the second. -/
def docA : PageDocument :=
  { alerts := [], heading := some "Page One", noteText := some "First note",
    obsMetadataText := some "Authored by Jane added 2 May 2023 02:30 PM",
    imageSrcs := [], videoSrcs := [],
    previousHref := some "https://tapestryjournal.com/s/school/observation/102" }

/-- Second page of the witness chain, linking to the third. -/
def docB : PageDocument :=
  { alerts := [], heading := some "Page Two", noteText := some "Second note",
    obsMetadataText := some "Authored by Joe added 3 May 2023 11:05 AM",
    imageSrcs := ["http://img/b"], videoSrcs := [],
    previousHref := some "https://tapestryjournal.com/s/school/observation/103" }

/-- Last page of the witness chain: no previous anchor. -/
def docC : PageDocument :=
  { alerts := [], heading := some "Page Three", noteText := some "Third note",
    obsMetadataText := some "Authored by Jane added 4 May 2023 09:00 AM",
    imageSrcs := [], videoSrcs := [],
    previousHref := none }

/-- The three-page witness site of the chain scenario. -/
def siteChain : Site :=
  { fetch := fun obsId =>
      if obsId = "101" then some docA
      else if obsId = "102" then some docB
      else if obsId = "103" then some docC
      else none,
    download := fun _ => true }

/-- The metadata extracted from the first witness page. -/
def mdA : ObservationMetadata :=
  { title := "Page One", description := "First note", artist := "Jane",
    date := { year := 2023, month := 5, day := 2, hour := 14, minute := 30 } }

/-- The metadata extracted from the second witness page. -/
def mdB : ObservationMetadata :=
  { title := "Page Two", description := "Second note", artist := "Joe",
    date := { year := 2023, month := 5, day := 3, hour := 11, minute := 5 } }

/-- The metadata extracted from the third witness page. -/
def mdC : ObservationMetadata :=
  { title := "Page Three", description := "Third note", artist := "Jane",
    date := { year := 2023, month := 5, day := 4, hour := 9, minute := 0 } }

def secA : String := capture_observation_info mdA

def secB : String := capture_observation_info mdB

def secC : String := capture_observation_info mdC

/-- A structurally broken page: no alert, but none of the metadata
elements are present. -/
def docBad : PageDocument :=
  { alerts := [], heading := none, noteText := none, obsMetadataText := none,
    imageSrcs := [], videoSrcs := [], previousHref := none }

/-- A site whose first page processes and links onward, while the
second page fails metadata extraction: the run aborts after one page of
successful progress. -/
def siteAbort : Site :=
  { fetch := fun obsId =>
      if obsId = "101" then some docA
      else if obsId = "102" then some docBad
      else none,
    download := fun _ => true }

/-- A site on which every fetch fails. -/
def siteFetchFail : Site :=
  { fetch := fun _ => none, download := fun _ => true }

/-- A valid page whose previous anchor href does not contain the base
url pattern at all. -/
def docNav : PageDocument :=
  { alerts := [], heading := some "Page One", noteText := some "First note",
    obsMetadataText := some "Authored by Jane added 2 May 2023 02:30 PM",
    imageSrcs := [], videoSrcs := [],
    previousHref := some "no-observation-link-here" }

/-- A site serving the unparseable-anchor page for every id. -/
def siteNav : Site :=
  { fetch := fun _ => some docNav, download := fun _ => true }

/-- A page whose previous anchor href ends in the base url and a slash
with no digits after them. -/
def docEmptyNav : PageDocument :=
  { alerts := [], heading := some "Page One", noteText := some "First note",
    obsMetadataText := some "Authored by Jane added 2 May 2023 02:30 PM",
    imageSrcs := [], videoSrcs := [],
    previousHref := some "https://tapestryjournal.com/s/school/observation/" }

/-- A page carrying a logged-out alert banner and nothing else the
extractor expects. -/
def docLoggedOut : PageDocument :=
  { alerts := ["", "  You seem to be logged out, please log in again.  "],
    heading := none, noteText := none, obsMetadataText := none,
    imageSrcs := [], videoSrcs := [], previousHref := none }

/-- A site serving only the logged-out page. -/
def siteLoggedOut : Site :=
  { fetch := fun _ => some docLoggedOut, download := fun _ => true }

/-- The metadata of the file-naming scenario in the spec. -/
def mdArtDay : ObservationMetadata :=
  { title := "Art Day!", description := "", artist := "A",
    date := { year := 2023, month := 5, day := 2, hour := 14, minute := 30 } }

theorem strEq_of_data {s t : String} (h : s.data = t.data) : s = t :=
  congrArg String.mk h

theorem good_append {s t : String}
    (hs : ∀ c ∈ s.data, c.toNat ≤ 127 ∧ c ≠ ' ')
    (ht : ∀ c ∈ t.data, c.toNat ≤ 127 ∧ c ≠ ' ') :
    ∀ c ∈ (s ++ t).data, c.toNat ≤ 127 ∧ c ≠ ' ' := by
  intro c hc
  rw [String.data_append] at hc
  rcases List.mem_append.mp hc with h | h
  · exact hs c h
  · exact ht c h

theorem digitChar_good (d : Nat) : (digitChar d).toNat ≤ 127 ∧ digitChar d ≠ ' ' := by
  unfold digitChar
  repeat' split
  all_goals decide

theorem natToCharsRec_good :
    ∀ (fuel n : Nat) (acc : List Char),
      (∀ c ∈ acc, c.toNat ≤ 127 ∧ c ≠ ' ') →
      ∀ c ∈ natToCharsRec fuel n acc, c.toNat ≤ 127 ∧ c ≠ ' ' := by
  intro fuel
  induction fuel with
  | zero =>
    intro n acc hacc
    simpa [natToCharsRec] using hacc
  | succ fuel ih =>
    intro n acc hacc c hc
    by_cases h : n < 10
    · simp only [natToCharsRec, if_pos h] at hc
      rcases List.mem_cons.mp hc with rfl | hmem
      · exact digitChar_good n
      · exact hacc c hmem
    · simp only [natToCharsRec, if_neg h] at hc
      refine ih (n / 10) (digitChar (n % 10) :: acc) ?_ c hc
      intro b hb
      rcases List.mem_cons.mp hb with rfl | hb2
      · exact digitChar_good (n % 10)
      · exact hacc b hb2

theorem natRepr_good (n : Nat) : ∀ c ∈ (natRepr n).data, c.toNat ≤ 127 ∧ c ≠ ' ' := by
  intro c hc
  exact natToCharsRec_good (n + 1) n [] (by simp) c hc

theorem leftPad_zero_good (k : Nat) (cs : List Char)
    (hcs : ∀ c ∈ cs, c.toNat ≤ 127 ∧ c ≠ ' ') :
    ∀ c ∈ leftPad k '0' cs, c.toNat ≤ 127 ∧ c ≠ ' ' := by
  intro c hc
  rcases List.mem_append.mp hc with h | h
  · rcases List.eq_of_mem_replicate h with rfl
    decide
  · exact hcs c h

theorem pad2_good (n : Nat) : ∀ c ∈ (pad2 n).data, c.toNat ≤ 127 ∧ c ≠ ' ' := by
  intro c hc
  exact leftPad_zero_good 2 (natToChars n)
    (fun b hb => natToCharsRec_good (n + 1) n [] (by simp) b hb) c hc

theorem pad4_good (n : Nat) : ∀ c ∈ (pad4 n).data, c.toNat ≤ 127 ∧ c ≠ ' ' := by
  intro c hc
  exact leftPad_zero_good 4 (natToChars n)
    (fun b hb => natToCharsRec_good (n + 1) n [] (by simp) b hb) c hc

theorem mem_of_mem_pyStrip {c : Char} {l : List Char} (h : c ∈ pyStrip l) : c ∈ l := by
  unfold pyStrip at h
  rw [List.mem_reverse] at h
  have h2 := (List.dropWhile_sublist isPyWs).subset h
  rw [List.mem_reverse] at h2
  exact (List.dropWhile_sublist isPyWs).subset h2

theorem slugifyTitle_good (title : String) :
    ∀ c ∈ (slugifyTitle title).data, c.toNat ≤ 127 ∧ c ≠ ' ' := by
  intro c hc
  simp only [slugifyTitle] at hc
  rcases List.mem_map.mp hc with ⟨b, hb, rfl⟩
  have hb2 := mem_of_mem_pyStrip hb
  have hb3 := List.mem_filter.mp hb2
  have hb4 : b.toNat ≤ 127 := of_decide_eq_true hb3.2
  by_cases hsp : b = ' '
  · simp only [if_pos hsp]
    decide
  · simp only [if_neg hsp]
    exact ⟨hb4, hsp⟩

theorem strftimeFileStart_good (d : DateTime) :
    ∀ c ∈ (strftimeFileStart d).data, c.toNat ≤ 127 ∧ c ≠ ' ' := by
  unfold strftimeFileStart
  refine good_append (good_append (good_append (good_append (good_append (good_append
    (good_append (good_append (good_append (good_append ?_ ?_) ?_) ?_) ?_) ?_) ?_) ?_) ?_) ?_) ?_
  exacts [by decide, pad4_good _, by decide, pad2_good _, by decide, pad2_good _,
    by decide, pad2_good _, by decide, pad2_good _, by decide]

theorem ordinalSuffix_good (index : Nat) :
    ∀ c ∈ (if index > 0 then "-" ++ natRepr index else "").data, c.toNat ≤ 127 ∧ c ≠ ' ' := by
  split
  · apply good_append
    · decide
    · exact natRepr_good index
  · decide

theorem extSuffix_good (video : Bool) :
    ∀ c ∈ (if video then ".mp4" else ".jpeg").data, c.toNat ≤ 127 ∧ c ≠ ' ' := by
  cases video <;> decide

theorem chain_length {site : Site} {config : TapestryConfig} {obsId : String}
    {ids secs : List String} (h : Chain site config obsId ids secs) :
    secs.length = ids.length := by
  induction h with
  | last obsId doc s hne hf hs hprev => rfl
  | step obsId doc s nextId ids secs hne hf hs hn hch ih => simpa using ih

theorem runLoop_written (site : Site) (config : TapestryConfig) :
    ∀ (fuel : Nat) (cur : Option String) (md : String) (visited : List String),
      ((runLoop site config fuel cur md visited).terminal = Terminal.done →
        (runLoop site config fuel cur md visited).written =
          some (runLoop site config fuel cur md visited).journal) ∧
      ((runLoop site config fuel cur md visited).terminal ≠ Terminal.done →
        (runLoop site config fuel cur md visited).written = none) := by
  intro fuel
  induction fuel with
  | zero =>
    intro cur md visited
    cases cur with
    | none => simp [runLoop]
    | some obsId => by_cases h : obsId = "" <;> simp [runLoop, h]
  | succ fuel ih =>
    intro cur md visited
    cases cur with
    | none => simp [runLoop]
    | some obsId =>
      by_cases h : obsId = ""
      · simp [runLoop, h]
      · cases hf : site.fetch obsId with
        | none => simp [runLoop, h, hf]
        | some doc =>
          cases hs : save_media_for_page site doc with
          | error e => simp [runLoop, h, hf, hs]
          | ok s =>
            cases hn : get_next_observation_id doc config with
            | error e => simp [runLoop, h, hf, hs, hn]
            | ok next =>
              have := ih next (md ++ s) (obsId :: visited)
              simpa [runLoop, h, hf, hs, hn] using this

theorem runLoop_chain {site : Site} {config : TapestryConfig} {obsId : String}
    {ids secs : List String} (hch : Chain site config obsId ids secs) :
    ∀ (fuel : Nat) (md : String) (visited : List String), ids.length ≤ fuel →
      runLoop site config fuel (some obsId) md visited =
        { visited := visited.reverse ++ ids,
          journal := md ++ joinSections secs,
          written := some (md ++ joinSections secs),
          terminal := Terminal.done } := by
  induction hch with
  | last obsId doc s hne hf hs hprev =>
    intro fuel md visited hfuel
    cases fuel with
    | zero => simp at hfuel
    | succ fuel =>
      have hnext : get_next_observation_id doc config = Except.ok none := by
        simp [get_next_observation_id, hprev]
      simp [runLoop, hne, hf, hs, hnext, joinSections, String.append_empty]
  | step obsId doc s nextId ids secs hne hf hs hn hch ih =>
    intro fuel md visited hfuel
    cases fuel with
    | zero => simp at hfuel
    | succ fuel =>
      have hfuel2 : ids.length ≤ fuel := by
        simp at hfuel
        omega
      have hrec := ih fuel (md ++ s) (obsId :: visited) hfuel2
      simp [runLoop, hne, hf, hs, hn, hrec, joinSections, String.append_assoc]

/-- C3: whenever some alert region of a fetched document has non-empty
text containing the logged-out substring, get_metadata fails with the
session-expired error, and it does so before reading any other field:
the conclusion holds for every document satisfying the alert condition,
whatever its heading, note, caption or media content. -/
theorem claim_C3 (doc : PageDocument)
    (h : ∃ a ∈ doc.alerts, containsPat loggedOutPat (pyStrip a.data) = true) :
    get_metadata doc = Except.error MetadataError.sessionExpired := by
  obtain ⟨a, ha, hc⟩ := h
  have hne : pyStrip a.data ≠ [] := by
    intro hnil
    rw [hnil] at hc
    exact absurd hc (by decide)
  have htrig : alertTriggers a = true := by
    simp [alertTriggers, hc, List.isEmpty_iff, hne]
  have hany : doc.alerts.any alertTriggers = true :=
    List.any_eq_true.mpr ⟨a, ha, htrig⟩
  simp [get_metadata, hany]

theorem claim_C3_witness :
    get_metadata docLoggedOut = Except.error MetadataError.sessionExpired :=
  claim_C3 docLoggedOut
    ⟨"  You seem to be logged out, please log in again.  ", by decide, by decide⟩

/-- C7: a document that passes the session-expiry check but lacks the
heading, lacks the note region, or carries a caption the fixed
Authored-by pattern does not match, makes get_metadata fail with the
metadata parse error, which is a distinct constructor from the
session-expired error. -/
theorem claim_C7 (doc : PageDocument)
    (halert : doc.alerts.any alertTriggers = false)
    (h : doc.heading = none ∨ doc.noteText = none ∨
      ∃ t, doc.obsMetadataText = some t ∧ searchAuthoredAdded (pyStrip t.data) = none) :
    get_metadata doc = Except.error MetadataError.metadataParseError := by
  rcases h with h | h | ⟨t, ht, hsearch⟩
  · simp [get_metadata, halert, h]
  · cases hh : doc.heading <;> simp [get_metadata, halert, hh, h]
  · cases hh : doc.heading with
    | none => simp [get_metadata, halert, hh]
    | some hd =>
      cases hn : doc.noteText with
      | none => simp [get_metadata, halert, hh, hn]
      | some nt => simp [get_metadata, halert, hh, hn, ht, hsearch]

theorem claim_C7_witness :
    get_metadata docBad = Except.error MetadataError.metadataParseError :=
  claim_C7 docBad (by decide) (Or.inl rfl)

/-- C9: every successfully extracted metadata record round-trips into
its journal entry: the entry is the level-two heading holding the page
title (the stripped first heading), then the level-three sub-heading
holding the artist, a comma and the formatted date, then the body
holding the description, which is the stripped note text with embedded
newlines collapsed to single spaces. -/
theorem claim_C9 (doc : PageDocument) (m : ObservationMetadata)
    (h : get_metadata doc = Except.ok m) :
    ∃ hd nt, doc.heading = some hd ∧ doc.noteText = some nt ∧
      m.title = pyStripS hd ∧
      m.description = collapseNewlines (pyStripS nt) ∧
      capture_observation_info m =
        ("## " ++ m.title ++ "\n\n") ++
        ("### " ++ m.artist ++ ", " ++ strftimeEntry m.date ++ "\n\n") ++
        (m.description ++ "\n\n") := by
  by_cases halert : doc.alerts.any alertTriggers = true
  · simp [get_metadata, halert] at h
  · cases hh : doc.heading with
    | none => simp [get_metadata, halert, hh] at h
    | some hd =>
      cases hn : doc.noteText with
      | none => simp [get_metadata, halert, hh, hn] at h
      | some nt =>
        cases hm : doc.obsMetadataText with
        | none => simp [get_metadata, halert, hh, hn, hm] at h
        | some mt =>
          cases hsr : searchAuthoredAdded (pyStrip mt.data) with
          | none => simp [get_metadata, halert, hh, hn, hm, hsr] at h
          | some g =>
            obtain ⟨g1, g2⟩ := g
            cases hdt : strptimeObs g2 with
            | none => simp [get_metadata, halert, hh, hn, hm, hsr, hdt] at h
            | some dt =>
              simp [get_metadata, halert, hh, hn, hm, hsr, hdt] at h
              subst h
              refine ⟨hd, nt, rfl, rfl, rfl, rfl, ?_⟩
              apply strEq_of_data
              simp [capture_observation_info, String.data_append, List.append_assoc]

theorem claim_C9_witness :
    get_metadata docC = Except.ok mdC ∧
    (∃ hd nt, docC.heading = some hd ∧ docC.noteText = some nt ∧
      mdC.title = pyStripS hd ∧
      mdC.description = collapseNewlines (pyStripS nt) ∧
      capture_observation_info mdC =
        ("## " ++ mdC.title ++ "\n\n") ++
        ("### " ++ mdC.artist ++ ", " ++ strftimeEntry mdC.date ++ "\n\n") ++
        (mdC.description ++ "\n\n")) :=
  ⟨rfl, claim_C9 docC mdC rfl⟩

/-- C4: for every metadata record, ordinal and media kind, the derived
file name is the images directory, the timestamp zero-padded as
year-month-day-hour-minute, a hyphen, the slugified title, an ordinal
suffix exactly when the ordinal is positive, and the extension fixed by
the kind (the spec-worded construction specFileName); in particular the
Art-Day scenario of the spec produces the two stated names. -/
theorem claim_C4 :
    (∀ (metadata : ObservationMetadata) (index : Nat) (video : Bool),
      get_file_name metadata index video = specFileName metadata index video) ∧
    get_file_name mdArtDay 0 false = "./images/2023-05-02-14-30-Art-Day!.jpeg" ∧
    get_file_name mdArtDay 1 false = "./images/2023-05-02-14-30-Art-Day!-1.jpeg" := by
  refine ⟨?_, by decide, by decide⟩
  intro metadata index video
  apply strEq_of_data
  cases video <;> by_cases h : index > 0 <;>
    simp [get_file_name, specFileName, strftimeFileStart, h,
      String.data_append, List.append_assoc]

/-- C6: every character of every derived file name is seven-bit ASCII
and is not a space: the slug filters out all characters above the ASCII
range, strips the ends and maps every remaining space to a hyphen, and
every other piece of the name is built from digits, hyphens and fixed
ASCII literals. -/
theorem claim_C6 (metadata : ObservationMetadata) (index : Nat) (video : Bool) :
    ∀ c ∈ (get_file_name metadata index video).data, c.toNat ≤ 127 ∧ c ≠ ' ' := by
  have h1 := strftimeFileStart_good metadata.date
  have h2 := slugifyTitle_good metadata.title
  have h3 := ordinalSuffix_good index
  have h4 := extSuffix_good video
  exact good_append (good_append (good_append h1 h2) h3) h4

theorem claim_C6_witness :
    ('A' ∈ (get_file_name mdArtDay 0 false).data) ∧ ('A'.toNat ≤ 127 ∧ 'A' ≠ ' ') :=
  ⟨by decide, claim_C6 mdArtDay 0 false 'A' (by decide)⟩

/-- C10: when a previous anchor is present and its href contains the
base url and a slash with no digit following (the leftmost occurrence
the search uses), id extraction succeeds with the empty string; the
loop then stops exactly as on Done, writing the journal and visiting no
further page; and every id the extraction ever produces consists solely
of decimal digits. -/
theorem claim_C10 (config : TapestryConfig) (doc docNext : PageDocument) (href : String)
    (rest : List Char) (site : Site) (fuel : Nat) (md : String) (visited : List String)
    (nextId : String)
    (h1 : doc.previousHref = some href)
    (h2 : searchAfter (config.base_url.data ++ ['/']) href.data = some rest)
    (h3 : ∀ c, rest.head? = some c → c.isDigit = false)
    (h4 : get_next_observation_id docNext config = Except.ok (some nextId)) :
    get_next_observation_id doc config = Except.ok (some "") ∧
    runLoop site config fuel (some "") md visited =
      { visited := visited.reverse, journal := md, written := some md,
        terminal := Terminal.done } ∧
    nextId.data.all Char.isDigit = true := by
  refine ⟨?_, by unfold runLoop; simp, ?_⟩
  · have hempty : rest.takeWhile Char.isDigit = [] := by
      cases rest with
      | nil => rfl
      | cons c cs =>
        have hc : Char.isDigit c = false := h3 c rfl
        simp [List.takeWhile, hc]
    simp [get_next_observation_id, h1, h2, hempty]
  · cases hp : docNext.previousHref with
    | none => simp [get_next_observation_id, hp] at h4
    | some href2 =>
      cases hs2 : searchAfter (config.base_url.data ++ ['/']) href2.data with
      | none => simp [get_next_observation_id, hp, hs2] at h4
      | some rest2 =>
        simp [get_next_observation_id, hp, hs2] at h4
        subst h4
        exact List.all_takeWhile

theorem claim_C10_witness :
    get_next_observation_id docEmptyNav cfgT = Except.ok (some "") ∧
    runLoop siteChain cfgT 4 (some "") "x" ["101"] =
      { visited := ["101"].reverse, journal := "x", written := some "x",
        terminal := Terminal.done } ∧
    ("102" : String).data.all Char.isDigit = true :=
  claim_C10 cfgT docEmptyNav docA
    "https://tapestryjournal.com/s/school/observation/" [] siteChain 4 "x" ["101"] "102"
    rfl (by decide) (fun c hc => nomatch hc) rfl

/-- C8: from a page whose previous anchor is present but whose href the
base-url pattern cannot be parsed out of, the walk aborts with the
navigation parse error; from a page with no previous anchor the walk
transitions to Done instead, writing the journal. -/
theorem claim_C8 (site : Site) (config : TapestryConfig) (fuel : Nat)
    (obsId : String) (doc : PageDocument) (s md : String) (visited : List String)
    (hid : obsId ≠ "") (hf : site.fetch obsId = some doc)
    (hp : save_media_for_page site doc = Except.ok s) :
    ((∃ href, doc.previousHref = some href ∧
        searchAfter (config.base_url.data ++ ['/']) href.data = none) →
      get_next_observation_id doc config = Except.error RunError.navigationParseError ∧
      runLoop site config (fuel + 1) (some obsId) md visited =
        { visited := (obsId :: visited).reverse, journal := md ++ s,
          written := none, terminal := Terminal.aborted RunError.navigationParseError }) ∧
    (doc.previousHref = none →
      get_next_observation_id doc config = Except.ok none ∧
      runLoop site config (fuel + 1) (some obsId) md visited =
        { visited := (obsId :: visited).reverse, journal := md ++ s,
          written := some (md ++ s), terminal := Terminal.done }) := by
  constructor
  · rintro ⟨href, hhref, hsearch⟩
    have hnav : get_next_observation_id doc config = Except.error RunError.navigationParseError := by
      simp [get_next_observation_id, hhref, hsearch]
    exact ⟨hnav, by simp [runLoop, hid, hf, hp, hnav]⟩
  · intro hnone
    have hnav : get_next_observation_id doc config = Except.ok none := by
      simp [get_next_observation_id, hnone]
    exact ⟨hnav, by simp [runLoop, hid, hf, hp, hnav]⟩

theorem claim_C8_witness :
    (get_next_observation_id docNav cfgT = Except.error RunError.navigationParseError ∧
      runLoop siteNav cfgT 1 (some "101") "" [] =
        { visited := ["101"], journal := "" ++ secA, written := none,
          terminal := Terminal.aborted RunError.navigationParseError }) ∧
    (get_next_observation_id docC cfgT = Except.ok none ∧
      runLoop siteChain cfgT 1 (some "103") "" [] =
        { visited := ["103"], journal := "" ++ secC, written := some ("" ++ secC),
          terminal := Terminal.done }) :=
  ⟨(claim_C8 siteNav cfgT 0 "101" docNav secA "" [] (by decide) rfl rfl).1
      ⟨"no-observation-link-here", rfl, by decide⟩,
   (claim_C8 siteChain cfgT 0 "103" docC secC "" [] (by decide) rfl rfl).2 rfl⟩

/-- C5: along a chain of pages in which every page except the last
links to the next via its previous anchor, the controller visits
exactly the ids of the chain in link order, reaches Done after the last
page, and the written journal is the owner heading followed by exactly
one section per visited page in visitation order. -/
theorem claim_C5 (site : Site) (config : TapestryConfig) (ids secs : List String) (fuel : Nat)
    (hch : Chain site config config.first_observation_id ids secs)
    (hfuel : ids.length ≤ fuel) :
    run site config fuel =
      { visited := ids,
        journal := runHeader config ++ joinSections secs,
        written := some (runHeader config ++ joinSections secs),
        terminal := Terminal.done } ∧
    secs.length = ids.length := by
  constructor
  · have h := runLoop_chain hch fuel (runHeader config) [] hfuel
    simpa [run] using h
  · exact chain_length hch

theorem claim_C5_witness :
    Chain siteChain cfgT "101" ["101", "102", "103"] [secA, secB, secC] ∧
    run siteChain cfgT 3 =
      { visited := ["101", "102", "103"],
        journal := runHeader cfgT ++ joinSections [secA, secB, secC],
        written := some (runHeader cfgT ++ joinSections [secA, secB, secC]),
        terminal := Terminal.done } ∧
    ([secA, secB, secC] : List String).length = (["101", "102", "103"] : List String).length := by
  have hch : Chain siteChain cfgT "101" ["101", "102", "103"] [secA, secB, secC] :=
    Chain.step "101" docA secA "102" _ _ (by decide) rfl rfl rfl
      (Chain.step "102" docB secB "103" _ _ (by decide) rfl rfl rfl
        (Chain.last "103" docC secC (by decide) rfl rfl rfl))
  have h := claim_C5 siteChain cfgT ["101", "102", "103"] [secA, secB, secC] 3 hch (by decide)
  exact ⟨hch, h.1, h.2⟩

/-- C1 as the code actually behaves (amended): the journal file is
written, exactly once and holding the accumulated journal, when the
walk reaches Done; but when the run aborts with any error the exception
propagates past the write statement, so nothing is written and the
accumulated journal is lost. -/
theorem claim_C1 (site : Site) (config : TapestryConfig) (fuel : Nat) :
    ((run site config fuel).terminal = Terminal.done →
      (run site config fuel).written = some ((run site config fuel).journal)) ∧
    (∀ e : RunError, (run site config fuel).terminal = Terminal.aborted e →
      (run site config fuel).written = none) := by
  have h := runLoop_written site config fuel (some config.first_observation_id)
    (runHeader config) []
  constructor
  · exact h.1
  · intro e he
    simp only [run] at he
    refine h.2 ?_
    rw [he]
    exact fun hcontra => nomatch hcontra

theorem claim_C1_witness :
    (run siteChain cfgT 3).written = some ((run siteChain cfgT 3).journal) ∧
    (run siteAbort cfgT 5).written = none :=
  ⟨(claim_C1 siteChain cfgT 3).1 (by decide),
   (claim_C1 siteAbort cfgT 5).2 RunError.metadataParseError (by decide)⟩

/-- C1 counterexample: on a site whose first page processes and whose
second page fails metadata extraction, the run aborts having visited
two pages and accumulated the heading plus the first section, yet the
journal file is never written, contradicting the claim that the
accumulated journal is flushed on abort. -/
theorem claim_C1_counterexample :
    (run siteAbort cfgT 5).terminal = Terminal.aborted RunError.metadataParseError ∧
    (run siteAbort cfgT 5).visited = ["101", "102"] ∧
    (run siteAbort cfgT 5).journal = runHeader cfgT ++ secA ∧
    (run siteAbort cfgT 5).written = none ∧
    ¬ (run siteAbort cfgT 5).written = some ((run siteAbort cfgT 5).journal) := by
  decide

/-- C2 as the code actually behaves (amended): the process exits with
status zero exactly when the walk completes; a session-expired abort is
caught and exits with status one; every other abort escapes main as an
uncaught exception, which also ends the process with a non-zero
status. -/
theorem claim_C2 (site : Site) (config : TapestryConfig) (fuel : Nat) :
    ((run site config fuel).terminal = Terminal.done →
      mainEntry site config fuel = ProcessExit.exitZero ∧
      mainExitCode (mainEntry site config fuel) = 0) ∧
    ((run site config fuel).terminal = Terminal.aborted RunError.sessionExpired →
      mainEntry site config fuel = ProcessExit.sysExit 1 ∧
      mainExitCode (mainEntry site config fuel) ≠ 0) ∧
    (∀ e : RunError, e ≠ RunError.sessionExpired →
      (run site config fuel).terminal = Terminal.aborted e →
      mainEntry site config fuel = ProcessExit.uncaught e ∧
      mainExitCode (mainEntry site config fuel) ≠ 0) := by
  refine ⟨?_, ?_, ?_⟩
  · intro h
    simp [mainEntry, h, mainExitCode]
  · intro h
    simp [mainEntry, h, mainExitCode]
  · intro e hne h
    cases e with
    | fetchError => simp [mainEntry, h, mainExitCode]
    | sessionExpired => exact absurd rfl hne
    | metadataParseError => simp [mainEntry, h, mainExitCode]
    | navigationParseError => simp [mainEntry, h, mainExitCode]
    | downloadError => simp [mainEntry, h, mainExitCode]

theorem claim_C2_witness :
    mainEntry siteChain cfgT 3 = ProcessExit.exitZero ∧
    mainExitCode (mainEntry siteChain cfgT 3) = 0 :=
  (claim_C2 siteChain cfgT 3).1 (by decide)

/-- C2 counterexample: a run aborting with a fetch error does not exit
with status zero: the exception is not caught by main, and the
interpreter terminates the process with a non-zero status. -/
theorem claim_C2_counterexample :
    (run siteFetchFail cfgT 5).terminal = Terminal.aborted RunError.fetchError ∧
    mainEntry siteFetchFail cfgT 5 = ProcessExit.uncaught RunError.fetchError ∧
    ¬ mainExitCode (mainEntry siteFetchFail cfgT 5) = 0 := by
  decide
